import Mathlib

/-!
# pidgin-chime: attachment download-and-display and the resubscribe flag

A shallow embedding of `src/prpl/attachments.c` and of the Juggernaut fields of
`struct _ChimeConnection` (`src/connection.h`).

The C functions talk to libpurple and GLib.  Every answer those libraries give
(does a conversation exist, did the file write succeed, which id did the image
store hand out, what time is it) is read from a `Host` record, and every
observable thing the C code does to them (write a message, replace a file,
start a fetch) is appended to a list of `Effect`s, in program order.  A C
function of type `void` therefore becomes a function returning `List Effect`.

C strings are `String`s, `gsize` is `Nat`, `int` and `time_t` are `Int`,
`NULL`-able pointers are `Option`s and opaque library handles are numbers.
`_("...")` is taken in the untranslated (C locale) form.
-/

namespace Chime

/-! ## Types -/

/-- Bit mask `PurpleMessageFlags` of libpurple. -/
abbrev PurpleMessageFlags := Nat

/-- Flag `PURPLE_MESSAGE_SEND` of libpurple: outgoing message. -/
def PURPLE_MESSAGE_SEND : PurpleMessageFlags := 0x0001
/-- Flag `PURPLE_MESSAGE_RECV` of libpurple: incoming message. -/
def PURPLE_MESSAGE_RECV : PurpleMessageFlags := 0x0002
/-- Flag `PURPLE_MESSAGE_SYSTEM` of libpurple: system message. -/
def PURPLE_MESSAGE_SYSTEM : PurpleMessageFlags := 0x0004
/-- Flag `PURPLE_MESSAGE_ERROR` of libpurple: error message. -/
def PURPLE_MESSAGE_ERROR : PurpleMessageFlags := 0x0200
/-- Flag `PURPLE_MESSAGE_IMAGES` of libpurple: message contains images. -/
def PURPLE_MESSAGE_IMAGES : PurpleMessageFlags := 0x1000

/-- Test that every bit of `bit` is set in `flags`. -/
def hasFlag (flags bit : PurpleMessageFlags) : Prop := flags &&& bit = bit

instance (flags bit : PurpleMessageFlags) : Decidable (hasFlag flags bit) :=
  inferInstanceAs (Decidable (flags &&& bit = bit))

/-- Handle of a `PurpleAccount`. -/
abbrev PurpleAccount := Nat

/-- Handle of a `PurpleConversation`. -/
abbrev PurpleConversation := Nat

/-- Enumeration `PurpleConversationType` of libpurple, as far as it is used. -/
inductive PurpleConversationType
  | PURPLE_CONV_TYPE_IM
  | PURPLE_CONV_TYPE_CHAT
  deriving DecidableEq, Repr

/-- The part of a `PurpleConnection` the code reads: `conn->account`. -/
structure PurpleConnection where
  account : PurpleAccount
  deriving DecidableEq, Repr

/-- Struct `ChimeAttachment`: the four strings `extract_attachment` fills in. -/
structure ChimeAttachment where
  message_id : String
  filename : String
  url : String
  content_type : String
  deriving DecidableEq, Repr

/-- Struct `AttachmentContext`, with the fields `attachments.c` reads.  The C
field `from` is spelled `from_`. -/
structure AttachmentContext where
  conn : PurpleConnection
  from_ : String
  im_email : String
  when : Int
  chat_id : Int
  deriving DecidableEq, Repr

/-- Struct `DownloadCallbackData` (attachments.c, lines 97-101). -/
structure DownloadCallbackData where
  att : ChimeAttachment
  ctx : AttachmentContext
  path : String
  deriving DecidableEq, Repr

/-- The completion callbacks handed to `purple_util_fetch_url_len`. -/
inductive Callback
  | download_callback
  deriving DecidableEq, Repr

/-- Modelled from the spec: a Subscription Registry entry (section 3,
"Subscription: (channel_id, handler reference, interest count)"); the
contents of the `subscriptions` hash table are built by code that is not part
of the sources at hand. -/
structure Subscription where
  channel_id : String
  handler : Nat
  interest : Nat
  deriving DecidableEq, Repr

/-- The Juggernaut fields of `struct _ChimeConnection` (connection.h, lines 43-48)
together with `prpl_conn`. -/
structure ChimeConnection where
  prpl_conn : PurpleConnection
  jugg_connected : Bool
  jugg_resubscribe : Bool
  subscriptions : List Subscription
  deriving DecidableEq, Repr

/-- A JSON tree as json-glib presents it (numbers are kept as integers). -/
inductive JsonNode
  | null
  | bool (b : Bool)
  | int (i : Int)
  | str (s : String)
  | arr (elements : List JsonNode)
  | obj (members : List (String × JsonNode))

/-- What the code observably does to libpurple and GLib. -/
inductive Effect
  /-- Call `serv_got_chat_in(conn, id, who, flags, msg, mtime)`. -/
  | serv_got_chat_in (conn : PurpleConnection) (id : Int) (who : String)
      (flags : PurpleMessageFlags) (msg : String) (mtime : Int)
  /-- Call `serv_got_im(conn, who, msg, flags, mtime)`. -/
  | serv_got_im (conn : PurpleConnection) (who : String) (msg : String)
      (flags : PurpleMessageFlags) (mtime : Int)
  /-- Call `purple_conversation_new(type, account, name)` that returned `conv`. -/
  | purple_conversation_new (type : PurpleConversationType) (account : PurpleAccount)
      (name : String) (conv : PurpleConversation)
  /-- Call `purple_conversation_write(conv, who, msg, flags, mtime)`. -/
  | purple_conversation_write (conv : PurpleConversation) (who : Option String)
      (msg : String) (flags : PurpleMessageFlags) (mtime : Int)
  /-- Call `purple_debug_error(category, text)`. -/
  | purple_debug_error (category : String) (text : String)
  /-- Call `g_mkdir_with_parents(dir, mode)` that succeeded. -/
  | g_mkdir_with_parents (dir : String) (mode : Nat)
  /-- Call `g_file_set_contents(path, contents, len)` that succeeded: the file at
  `path` now holds `contents`. -/
  | g_file_set_contents (path : String) (contents : List UInt8)
  /-- Call `purple_imgstore_add_with_id(contents, size, path)` that stored the
  image under the non-zero `id`. -/
  | purple_imgstore_add_with_id (contents : List UInt8) (size : Nat) (path : String)
      (id : Int)
  /-- Call `purple_util_fetch_url_len(url, full, user_agent, http11, max_len,
  callback, data)`. -/
  | purple_util_fetch_url_len (url : String) (full : Bool) (user_agent : Option String)
      (http11 : Bool) (max_len : Int) (callback : Callback) (data : DownloadCallbackData)
  /-- Call `purple_connection_error`, which ends the session; nothing in
  attachments.c makes it. -/
  | purple_connection_error (text : String)
  deriving DecidableEq, Repr

/-- The answers of libpurple, GLib and the rest of the plugin. -/
structure Host where
  /-- Result of `purple_find_conversation_with_account(type, name, account)`. -/
  purple_find_conversation_with_account :
    PurpleConversationType → String → PurpleAccount → Option PurpleConversation
  /-- Result of `purple_conversation_new(type, account, name)`. -/
  purple_conversation_new :
    PurpleConversationType → PurpleAccount → String → Option PurpleConversation
  /-- Result of `time(NULL)`. -/
  time : Int
  /-- Result of `g_file_get_contents(path, ..)`: the contents, or `err->message`. -/
  g_file_get_contents : String → Except String (List UInt8)
  /-- Result of `g_file_set_contents(path, contents, len, ..)`: `none` for TRUE,
  `some m` for FALSE with `err->message = m`. -/
  g_file_set_contents : String → List UInt8 → Option String
  /-- Result of `purple_imgstore_add_with_id(contents, size, path)`. -/
  purple_imgstore_add_with_id : List UInt8 → Nat → String → Int
  /-- Result of `g_content_type_is_a(type, supertype)`. -/
  g_content_type_is_a : String → String → Bool
  /-- Result of `purple_user_dir()`. -/
  purple_user_dir : String
  /-- Result of `g_build_filename(e1, .., en, NULL)`. -/
  g_build_filename : List String → String
  /-- Result of `g_mkdir_with_parents(dir, mode)`: `none` for 0, `some e` for -1
  with `errno = e`. -/
  g_mkdir_with_parents : String → Nat → Option Int
  /-- Result of `g_strerror(errnum)`. -/
  g_strerror : Int → String
  /-- Result of `chime_connection_get_email(cxn)`. -/
  chime_connection_get_email : ChimeConnection → String

/-! ## attachments.c -/

/-- Macro `ATTACHMENT_MAX_SIZE` (attachments.c, line 25). -/
def ATTACHMENT_MAX_SIZE : Int := 50 * 1000 * 1000

/-- Conversion `%u` of printf applied to an `int`: the value modulo 2^32, in decimal. -/
def fmt_u (i : Int) : String := toString (i % 4294967296).toNat

/-- Conversion `%d` of printf applied to an `int`. -/
def fmt_d (i : Int) : String := toString i

/-- Function `write_conversation_message` (attachments.c, lines 31-50). -/
def write_conversation_message (h : Host) (from_ im_email : String) (conn : PurpleConnection)
    (msg : String) (flags : PurpleMessageFlags) (when : Int) : List Effect :=
  if from_ = im_email then
    [Effect.serv_got_im conn im_email msg (flags ||| PURPLE_MESSAGE_RECV) when]
  else
    let account := conn.account
    match h.purple_find_conversation_with_account .PURPLE_CONV_TYPE_IM im_email account with
    | some pconv =>
      [Effect.purple_conversation_write pconv none msg (flags ||| PURPLE_MESSAGE_SEND) when]
    | none =>
      match h.purple_conversation_new .PURPLE_CONV_TYPE_IM account im_email with
      | none => [Effect.purple_debug_error "chime" ("NO CONV FOR " ++ im_email ++ "\n")]
      | some pconv =>
        [Effect.purple_conversation_new .PURPLE_CONV_TYPE_IM account im_email pconv,
         Effect.purple_conversation_write pconv none msg (flags ||| PURPLE_MESSAGE_SEND) when]

/-- Function `img_message` (attachments.c, lines 52-62). -/
def img_message (h : Host) (ctx : AttachmentContext) (image_id : Int) : List Effect :=
  let flags := PURPLE_MESSAGE_IMAGES
  let msg := "<br><img id=\"" ++ fmt_u image_id ++ "\">"
  if ctx.chat_id ≠ -1 then
    [Effect.serv_got_chat_in ctx.conn ctx.chat_id ctx.from_ flags msg ctx.when]
  else
    write_conversation_message h ctx.from_ ctx.im_email ctx.conn msg flags ctx.when

/-- Function `sys_message` (attachments.c, lines 64-72). -/
def sys_message (h : Host) (ctx : AttachmentContext) (msg : String)
    (flags : PurpleMessageFlags) : List Effect :=
  let flags := flags ||| PURPLE_MESSAGE_SYSTEM
  if ctx.chat_id ≠ -1 then
    [Effect.serv_got_chat_in ctx.conn ctx.chat_id "" flags msg h.time]
  else
    write_conversation_message h ctx.from_ ctx.im_email ctx.conn msg flags h.time

/-- Function `insert_image_from_file` (attachments.c, lines 74-95). -/
def insert_image_from_file (h : Host) (ctx : AttachmentContext) (path : String) : List Effect :=
  match h.g_file_get_contents path with
  | .error message => sys_message h ctx message PURPLE_MESSAGE_ERROR
  | .ok contents =>
    let size := contents.length
    let img_id := h.purple_imgstore_add_with_id contents size path
    if img_id = 0 then
      sys_message h ctx ("Could not make purple image from " ++ path) PURPLE_MESSAGE_ERROR
    else
      Effect.purple_imgstore_add_with_id contents size path img_id :: img_message h ctx img_id

/-- Function `download_callback` (attachments.c, lines 115-148).  The buffer
`url_text` is `none` for NULL and `g_file_set_contents` is given its first `len`
bytes; the test `len <= 0 || url_text == NULL` is made in two steps. -/
def download_callback (h : Host) (data : DownloadCallbackData) (url_text : Option (List UInt8))
    (len : Nat) (error_message : Option String) : List Effect :=
  match error_message with
  | some message => sys_message h data.ctx message PURPLE_MESSAGE_ERROR
  | none =>
    match url_text with
    | none => sys_message h data.ctx "Downloaded empty contents." PURPLE_MESSAGE_ERROR
    | some text =>
      if len ≤ 0 then
        sys_message h data.ctx "Downloaded empty contents." PURPLE_MESSAGE_ERROR
      else
        match h.g_file_set_contents data.path (text.take len) with
        | some message => sys_message h data.ctx message PURPLE_MESSAGE_ERROR
        | none =>
          Effect.g_file_set_contents data.path (text.take len) ::
            (if h.g_content_type_is_a data.att.content_type "image/*" then
              insert_image_from_file h data.ctx data.path
            else
              sys_message h data.ctx
                (data.ctx.from_ ++ " has attached <a href=\"file://" ++ data.path ++ "\">"
                  ++ data.att.filename ++ "</a>")
                PURPLE_MESSAGE_SYSTEM)

/-- Function `json_node_get_object` of json-glib: the members of an object node,
NULL for any other node. -/
def json_node_get_object : JsonNode → Option (List (String × JsonNode))
  | .obj members => some members
  | _ => none

/-- Function `json_object_get_member` of json-glib: the member of that name, or NULL. -/
def json_object_get_member (robj : List (String × JsonNode)) (name : String) : Option JsonNode :=
  (robj.find? (fun m => m.1 == name)).map (fun m => m.2)

/-- Function `extract_attachment` (attachments.c, lines 150-175).  The helper
`parse_string(node, name, &out)` is defined elsewhere in the plugin and is a
parameter here: `none` stands for FALSE and `some s` for TRUE with `*out = s`.
Each `g_return_val_if_fail` is the early return it expands to. -/
def extract_attachment (parse_string : JsonNode → String → Option String)
    (record : Option JsonNode) : Option ChimeAttachment :=
  match record with
  | none => none
  | some record =>
    match json_node_get_object record with
    | none => none
    | some robj =>
      match json_object_get_member robj "Attachment" with
      | none => none
      | some node =>
        match parse_string record "MessageId" with
        | none => none
        | some msg_id =>
          match parse_string node "FileName" with
          | none => none
          | some filename =>
            match parse_string node "Url" with
            | none => none
            | some url =>
              match parse_string node "ContentType" with
              | none => none
              | some content_type =>
                some { message_id := msg_id, filename := filename, url := url,
                       content_type := content_type }

/-- Function `download_attachment` (attachments.c, lines 177-194). -/
def download_attachment (h : Host) (cxn : ChimeConnection) (att : ChimeAttachment)
    (ctx : AttachmentContext) : List Effect :=
  let username := h.chime_connection_get_email cxn
  let dir := h.g_build_filename [h.purple_user_dir, "chime", username, "downloads"]
  match h.g_mkdir_with_parents dir 0o755 with
  | some errno =>
    let msg := "Could not make dir " ++ dir ++ ",will not fetch file/image (errno="
      ++ fmt_d errno ++ ", errstr=" ++ h.g_strerror errno ++ ")"
    sys_message h ctx msg PURPLE_MESSAGE_ERROR
  | none =>
    let data : DownloadCallbackData :=
      { path := dir ++ "/" ++ att.message_id ++ "-" ++ att.filename, att := att, ctx := ctx }
    [Effect.g_mkdir_with_parents dir 0o755,
     Effect.purple_util_fetch_url_len att.url true none false ATTACHMENT_MAX_SIZE
       Callback.download_callback data]

/-! ## Reading a trace -/

/-- The effects that put a message in front of the user. -/
def Effect.isMessage : Effect → Bool
  | .serv_got_chat_in .. => true
  | .serv_got_im .. => true
  | .purple_conversation_write .. => true
  | _ => false

/-- The flags a message effect carries (0 for other effects). -/
def Effect.flags : Effect → PurpleMessageFlags
  | .serv_got_chat_in _ _ _ flags _ _ => flags
  | .serv_got_im _ _ _ flags _ => flags
  | .purple_conversation_write _ _ _ flags _ => flags
  | _ => 0

/-- The text a message effect carries (empty for other effects). -/
def Effect.text : Effect → String
  | .serv_got_chat_in _ _ _ _ msg _ => msg
  | .serv_got_im _ _ msg _ _ => msg
  | .purple_conversation_write _ _ msg _ _ => msg
  | _ => ""

/-- The effects that start a fetch. -/
def Effect.isFetch : Effect → Bool
  | .purple_util_fetch_url_len .. => true
  | _ => false

/-- The effects that end the session. -/
def Effect.isFatal : Effect → Bool
  | .purple_connection_error .. => true
  | _ => false

/-- The effects that register an image with the image store. -/
def Effect.isImageStore : Effect → Bool
  | .purple_imgstore_add_with_id .. => true
  | _ => false

/-- The messages of a trace, in order. -/
def messages (out : List Effect) : List Effect := out.filter Effect.isMessage

/-- The fetches of a trace, in order. -/
def fetches (out : List Effect) : List Effect := out.filter Effect.isFetch

/-- The paths the fetches of a trace will store their download at. -/
def stored_paths (out : List Effect) : List String :=
  out.filterMap fun e =>
    match e with
    | .purple_util_fetch_url_len _ _ _ _ _ _ data => some data.path
    | _ => none

/-- The files a trace has written, with their new contents. -/
def files_written (out : List Effect) : List (String × List UInt8) :=
  out.filterMap fun e =>
    match e with
    | .g_file_set_contents path contents => some (path, contents)
    | _ => none

/-- The IM conversation `write_conversation_message` gets hold of for `im_email`:
the one libpurple finds, else the one it creates, else none. -/
def found_or_created (h : Host) (im_email : String) (account : PurpleAccount) :
    Option PurpleConversation :=
  match h.purple_find_conversation_with_account .PURPLE_CONV_TYPE_IM im_email account with
  | some pconv => some pconv
  | none => h.purple_conversation_new .PURPLE_CONV_TYPE_IM account im_email

/-- The context can be written to: it is a chat, or an IM whose sender is the
peer `im_email`, or an IM whose conversation libpurple finds or creates. -/
def writable (h : Host) (ctx : AttachmentContext) : Prop :=
  ctx.chat_id ≠ -1 ∨ ctx.from_ = ctx.im_email ∨
    (found_or_created h ctx.im_email ctx.conn.account).isSome = true

instance (h : Host) (ctx : AttachmentContext) : Decidable (writable h ctx) :=
  inferInstanceAs (Decidable (_ ∨ _ ∨ _))

/-- Message effect `e` is addressed to the context `ctx`: to the chat room
`ctx.chat_id` when the context is a chat, else to the IM peer `ctx.im_email`. -/
def addressedTo (h : Host) (ctx : AttachmentContext) : Effect → Prop
  | .serv_got_chat_in conn id _ _ _ _ => ctx.chat_id ≠ -1 ∧ conn = ctx.conn ∧ id = ctx.chat_id
  | .serv_got_im conn who _ _ _ => ctx.chat_id = -1 ∧ conn = ctx.conn ∧ who = ctx.im_email
  | .purple_conversation_write conv _ _ _ _ =>
    ctx.chat_id = -1 ∧ found_or_created h ctx.im_email ctx.conn.account = some conv
  | _ => False

/-- The trace `out` shows the context `ctx` the text `text` under the flags `flags`:
every message in it is addressed to `ctx`, carries `text` and has each of
`flags` set, and there is exactly one such message when the context can be
written to and none otherwise. -/
def shows (h : Host) (ctx : AttachmentContext) (out : List Effect) (text : String)
    (flags : List PurpleMessageFlags) : Prop :=
  (messages out).length = (if writable h ctx then 1 else 0) ∧
  ∀ e ∈ messages out, addressedTo h ctx e ∧ e.text = text ∧ ∀ f ∈ flags, hasFlag e.flags f

/-! ## A concrete host, for examples -/

/-- A host in which no IM conversation exists yet but one can be created, every
file operation succeeds, only "image/png" is an image type, and
`g_build_filename` joins its elements with "/" (what GLib does when no element
is empty or begins or ends with a separator). -/
def host0 : Host where
  purple_find_conversation_with_account := fun _ _ _ => none
  purple_conversation_new := fun _ _ _ => some 7
  time := 1500000000
  g_file_get_contents := fun _ => .ok [0x89, 0x50]
  g_file_set_contents := fun _ _ => none
  purple_imgstore_add_with_id := fun _ _ _ => 3
  g_content_type_is_a := fun t _ => t == "image/png"
  purple_user_dir := "/home/u/.purple"
  g_build_filename := fun parts => "/".intercalate parts
  g_mkdir_with_parents := fun _ _ => none
  g_strerror := fun _ => "Permission denied"
  chime_connection_get_email := fun _ => "me@example.com"

/-- The host `host0`, except that no IM conversation can be created either. -/
def host_no_conv : Host :=
  { host0 with purple_conversation_new := fun _ _ _ => none }

/-- The host `host0`, except that the download directory cannot be created. -/
def host_no_dir : Host :=
  { host0 with g_mkdir_with_parents := fun _ _ => some 13 }

/-- The host `host_no_conv`, except that the download directory cannot be created. -/
def host_no_dir_no_conv : Host :=
  { host_no_conv with g_mkdir_with_parents := fun _ _ => some 13 }

/-- The host `host0`, except that `g_file_set_contents` fails. -/
def host_no_write : Host :=
  { host0 with g_file_set_contents := fun _ _ => some "No space left on device" }

/-- The host `host0`, except that `g_file_get_contents` fails. -/
def host_no_read : Host :=
  { host0 with g_file_get_contents := fun _ => .error "Permission denied" }

/-- The host `host0`, except that the image store refuses the image. -/
def host_no_image : Host :=
  { host0 with purple_imgstore_add_with_id := fun _ _ _ => 0 }

/-- An attachment used in examples: an image. -/
def att_png : ChimeAttachment :=
  { message_id := "m1", filename := "a.png", url := "https://x/a.png",
    content_type := "image/png" }

/-- An attachment used in examples: not an image. -/
def att_pdf : ChimeAttachment :=
  { message_id := "m2", filename := "b.pdf", url := "https://x/b.pdf",
    content_type := "application/pdf" }

/-- A connection used in examples. -/
def cxn0 : ChimeConnection :=
  { prpl_conn := ⟨1⟩, jugg_connected := false, jugg_resubscribe := false, subscriptions := [] }

/-- An IM context in which the attachment was sent by the user from another client. -/
def ctx_im_self : AttachmentContext :=
  { conn := ⟨1⟩, from_ := "me@example.com", im_email := "bob@example.com", when := 100,
    chat_id := -1 }

/-- An IM context in which the attachment was sent by the peer. -/
def ctx_im_peer : AttachmentContext :=
  { conn := ⟨1⟩, from_ := "bob@example.com", im_email := "bob@example.com", when := 100,
    chat_id := -1 }

/-- A chat room context. -/
def ctx_chat : AttachmentContext :=
  { conn := ⟨1⟩, from_ := "Bob", im_email := "", when := 100, chat_id := 5 }

/-- A parser for examples: the named member of an object when it is a string. -/
def parse0 (parent : JsonNode) (name : String) : Option String :=
  match parent with
  | .obj members =>
    match json_object_get_member members name with
    | some (.str s) => some s
    | _ => none
  | _ => none

/-! ## The Juggernaut session

`connection.h` declares the two flags `jugg_connected` and `jugg_resubscribe`;
the code that reads and writes them is not among the sources at hand, so the
session is modelled from sections 4.1, 4.2 and 6 of the specification. -/

/-- Modelled from the spec: the frame types of the wire protocol (section 6,
"type ∈ {subscribe, unsubscribe, resubscribe, event, ack}"); the code that
builds the frames is not among the sources. -/
inductive FrameType
  | subscribe
  | unsubscribe
  | resubscribe
  | event
  | ack
  deriving DecidableEq, Repr

/-- Modelled from the spec: a control frame of the wire protocol (section 6), which
names its channel and its type; the payload, which the spec leaves open for
control frames, is left out. -/
structure Frame where
  channel_id : String
  type : FrameType
  deriving DecidableEq, Repr

/-- Modelled from the spec: the states of the Session State Machine (section 4.1,
"Disconnected → Connecting → Connected → Reconnecting → Disconnected"). -/
inductive SessionState
  | Disconnected
  | Connecting
  | Connected
  | Reconnecting
  deriving DecidableEq, Repr

/-- Modelled from the spec: the session, which owns the connection object with its
two flags and its Subscription Registry (section 3), is in one state of the
state machine, has sent `sent` over the Transport Socket (oldest frame first)
and may have surfaced a fatal connectivity error; the session code is not among
the sources. -/
structure Session where
  cxn : ChimeConnection
  state : SessionState
  sent : List Frame
  fatal : Bool
  deriving DecidableEq, Repr

/-- Modelled from the spec: operation `subscribe(channel_id, handler)` of the
Subscription Registry (section 4.2), whose code is not among the sources: a new
channel is recorded and a `subscribe` frame is sent; a known channel only gains
interest. -/
def subscribe (s : Session) (channel_id : String) (handler : Nat) : Session :=
  if s.cxn.subscriptions.any (fun e => e.channel_id == channel_id) then
    { s with cxn := { s.cxn with subscriptions := s.cxn.subscriptions.map fun e =>
        if e.channel_id == channel_id then { e with interest := e.interest + 1 } else e } }
  else
    { s with
      cxn := { s.cxn with subscriptions := s.cxn.subscriptions ++ [⟨channel_id, handler, 1⟩] }
      sent := s.sent ++ [⟨channel_id, .subscribe⟩] }

theorem hasFlag_self (f : PurpleMessageFlags) : hasFlag f f := by
  unfold hasFlag
  exact Nat.and_self f

theorem hasFlag_or_right (f g : PurpleMessageFlags) : hasFlag (f ||| g) g := by
  unfold hasFlag
  apply Nat.eq_of_testBit_eq
  intro i
  simp only [Nat.testBit_and, Nat.testBit_or]
  cases f.testBit i <;> cases g.testBit i <;> rfl

theorem hasFlag_or_left (f g : PurpleMessageFlags) : hasFlag (f ||| g) f := by
  unfold hasFlag
  apply Nat.eq_of_testBit_eq
  intro i
  simp only [Nat.testBit_and, Nat.testBit_or]
  cases f.testBit i <;> cases g.testBit i <;> rfl

theorem hasFlag_or_of_left (f g b : PurpleMessageFlags) (hb : hasFlag f b) :
    hasFlag (f ||| g) b := by
  unfold hasFlag at *
  apply Nat.eq_of_testBit_eq
  intro i
  have hi := congrArg (fun n => n.testBit i) hb
  simp only [Nat.testBit_and, Nat.testBit_or] at hi ⊢
  revert hi
  cases f.testBit i <;> cases g.testBit i <;> cases b.testBit i <;> simp

/-! ## extract_attachment -/

/-- C1: for a record that is a JSON object, `extract_attachment` returns an
attachment exactly when the record has an "Attachment" member and
`parse_string` succeeds on MessageId (in the record) and on FileName, Url and
ContentType (in the member); the attachment returned then holds those four
strings, and in every other case the result is NULL. -/
theorem extract_attachment_object (parse_string : JsonNode → String → Option String)
    (members : List (String × JsonNode)) :
    (∀ att : ChimeAttachment,
      extract_attachment parse_string (some (.obj members)) = some att ↔
        ∃ node, json_object_get_member members "Attachment" = some node ∧
          parse_string (.obj members) "MessageId" = some att.message_id ∧
          parse_string node "FileName" = some att.filename ∧
          parse_string node "Url" = some att.url ∧
          parse_string node "ContentType" = some att.content_type) ∧
    (extract_attachment parse_string (some (.obj members)) = none ↔
      ¬ ∃ node msg_id filename url content_type,
          json_object_get_member members "Attachment" = some node ∧
          parse_string (.obj members) "MessageId" = some msg_id ∧
          parse_string node "FileName" = some filename ∧
          parse_string node "Url" = some url ∧
          parse_string node "ContentType" = some content_type) := by
  simp only [extract_attachment, json_node_get_object]
  cases hn : json_object_get_member members "Attachment" with
  | none => simp
  | some node =>
    cases h1 : parse_string (.obj members) "MessageId" with
    | none => simp [h1]
    | some msg_id =>
      cases h2 : parse_string node "FileName" with
      | none => simp [h1, h2]
      | some filename =>
        cases h3 : parse_string node "Url" with
        | none => simp [h1, h2, h3]
        | some url =>
          cases h4 : parse_string node "ContentType" with
          | none => simp [h1, h2, h3, h4]
          | some content_type =>
            refine ⟨?_, by simp [h1, h2, h3, h4]⟩
            intro att
            cases att
            simp [h1, h2, h3, h4]

/-- C1, witness: the example record yields its four strings, and a record without
an "Attachment" member yields NULL. -/
theorem extract_attachment_object_witness :
    extract_attachment parse0
        (some (.obj [("MessageId", .str "m1"),
          ("Attachment", .obj [("FileName", .str "a.png"), ("Url", .str "https://x/a.png"),
            ("ContentType", .str "image/png")])])) =
      some ⟨"m1", "a.png", "https://x/a.png", "image/png"⟩ ∧
    extract_attachment parse0 (some (.obj [("MessageId", .str "m1")])) = none :=
  ⟨((extract_attachment_object parse0 _).1 ⟨"m1", "a.png", "https://x/a.png", "image/png"⟩).mpr
      ⟨_, rfl, rfl, rfl, rfl, rfl⟩,
   (extract_attachment_object parse0 [("MessageId", .str "m1")]).2.mpr
      (fun ⟨_, _, _, _, _, hnode, _⟩ => by simp [json_object_get_member] at hnode)⟩

/-! ## write_conversation_message -/

theorem found_or_created_find (h : Host) (im_email : String) (account : PurpleAccount)
    (c : PurpleConversation)
    (hc : h.purple_find_conversation_with_account .PURPLE_CONV_TYPE_IM im_email account = some c) :
    found_or_created h im_email account = some c := by
  simp [found_or_created, hc]

theorem found_or_created_new (h : Host) (im_email : String) (account : PurpleAccount)
    (hc : h.purple_find_conversation_with_account .PURPLE_CONV_TYPE_IM im_email account = none) :
    found_or_created h im_email account =
      h.purple_conversation_new .PURPLE_CONV_TYPE_IM account im_email := by
  simp [found_or_created, hc]

/-- The messages `write_conversation_message` writes when sender and peer differ:
one into the conversation found or created, none when there is no such
conversation. -/
theorem messages_write_conversation_message_ne (h : Host) (from_ im_email : String)
    (conn : PurpleConnection) (msg : String) (flags : PurpleMessageFlags) (when : Int)
    (hne : from_ ≠ im_email) :
    messages (write_conversation_message h from_ im_email conn msg flags when) =
      match found_or_created h im_email conn.account with
      | some pconv =>
        [Effect.purple_conversation_write pconv none msg (flags ||| PURPLE_MESSAGE_SEND) when]
      | none => [] := by
  simp only [write_conversation_message, if_neg hne]
  cases hf : h.purple_find_conversation_with_account .PURPLE_CONV_TYPE_IM im_email conn.account with
  | some c => simp [found_or_created, hf, messages, Effect.isMessage]
  | none =>
    cases hc : h.purple_conversation_new .PURPLE_CONV_TYPE_IM conn.account im_email with
    | none => simp [found_or_created, hf, hc, messages, Effect.isMessage]
    | some c => simp [found_or_created, hf, hc, messages, Effect.isMessage]

/-- C6, as the code has it: `write_conversation_message` delivers the message as a
received one (a single `serv_got_im` with PURPLE_MESSAGE_RECV added to the
given flags) exactly when `from` equals `im_email`.  When they differ the
message is the user's own, sent from another client: no `serv_got_im` is made
and the message is written into the IM conversation found or created for
`im_email` with PURPLE_MESSAGE_SEND added to the given flags, or, when no
conversation is found or created, nothing is written. -/
theorem write_conversation_message_received_iff_same (h : Host) (from_ im_email : String)
    (conn : PurpleConnection) (msg : String) (flags : PurpleMessageFlags) (when : Int) :
    (Effect.serv_got_im conn im_email msg (flags ||| PURPLE_MESSAGE_RECV) when ∈
        write_conversation_message h from_ im_email conn msg flags when ↔ from_ = im_email) ∧
    (from_ = im_email →
      write_conversation_message h from_ im_email conn msg flags when =
        [Effect.serv_got_im conn im_email msg (flags ||| PURPLE_MESSAGE_RECV) when]) ∧
    (from_ ≠ im_email →
      (∀ c who m f t, Effect.serv_got_im c who m f t ∉
        write_conversation_message h from_ im_email conn msg flags when) ∧
      (∀ pconv, found_or_created h im_email conn.account = some pconv →
        messages (write_conversation_message h from_ im_email conn msg flags when) =
          [Effect.purple_conversation_write pconv none msg (flags ||| PURPLE_MESSAGE_SEND) when]) ∧
      (found_or_created h im_email conn.account = none →
        messages (write_conversation_message h from_ im_email conn msg flags when) = [])) := by
  have hno : from_ ≠ im_email → ∀ c who m f t, Effect.serv_got_im c who m f t ∉
      write_conversation_message h from_ im_email conn msg flags when := by
    intro hne c who m f t
    simp only [write_conversation_message, if_neg hne]
    cases h.purple_find_conversation_with_account .PURPLE_CONV_TYPE_IM im_email conn.account with
    | some c => simp
    | none =>
      cases h.purple_conversation_new .PURPLE_CONV_TYPE_IM conn.account im_email with
      | none => simp
      | some c => simp
  refine ⟨⟨?_, ?_⟩, ?_, ?_⟩
  · intro hmem
    by_contra hne
    exact hno hne _ _ _ _ _ hmem
  · intro heq
    simp [write_conversation_message, heq]
  · intro heq
    simp [write_conversation_message, heq]
  · intro hne
    refine ⟨hno hne, ?_, ?_⟩
    · intro pconv hp
      rw [messages_write_conversation_message_ne h from_ im_email conn msg flags when hne, hp]
    · intro hp
      rw [messages_write_conversation_message_ne h from_ im_email conn msg flags when hne, hp]

/-- C6, witness: the peer's message is received, the user's own message is
injected into the conversation created for the peer. -/
theorem write_conversation_message_received_iff_same_witness :
    write_conversation_message host0 "bob@example.com" "bob@example.com" ⟨1⟩ "hi" 0 100 =
        [Effect.serv_got_im ⟨1⟩ "bob@example.com" "hi" (0 ||| PURPLE_MESSAGE_RECV) 100] ∧
    messages (write_conversation_message host0 "me@example.com" "bob@example.com" ⟨1⟩ "hi" 0 100) =
        [Effect.purple_conversation_write 7 none "hi" (0 ||| PURPLE_MESSAGE_SEND) 100] ∧
    messages (write_conversation_message host_no_conv "me@example.com" "bob@example.com" ⟨1⟩
        "hi" 0 100) = [] :=
  ⟨(write_conversation_message_received_iff_same host0 "bob@example.com" "bob@example.com"
      ⟨1⟩ "hi" 0 100).2.1 rfl,
   ((write_conversation_message_received_iff_same host0 "me@example.com" "bob@example.com"
      ⟨1⟩ "hi" 0 100).2.2 (by decide)).2.1 7 (by decide),
   ((write_conversation_message_received_iff_same host_no_conv "me@example.com"
      "bob@example.com" ⟨1⟩ "hi" 0 100).2.2 (by decide)).2.2 (by decide)⟩

/-- C6, counterexample: with `from` equal to `im_email` the message is not
injected as the user's own: it goes through `serv_got_im` with
PURPLE_MESSAGE_RECV and without PURPLE_MESSAGE_SEND; and with `from` different
from `im_email` it is written with PURPLE_MESSAGE_SEND and without
PURPLE_MESSAGE_RECV. -/
theorem write_conversation_message_same_sender_not_own :
    write_conversation_message host0 "bob@example.com" "bob@example.com" ⟨1⟩ "hi" 0 100 =
        [Effect.serv_got_im ⟨1⟩ "bob@example.com" "hi" PURPLE_MESSAGE_RECV 100] ∧
    ¬ hasFlag PURPLE_MESSAGE_RECV PURPLE_MESSAGE_SEND ∧
    write_conversation_message host0 "me@example.com" "bob@example.com" ⟨1⟩ "hi" 0 100 =
        [Effect.purple_conversation_new .PURPLE_CONV_TYPE_IM 1 "bob@example.com" 7,
         Effect.purple_conversation_write 7 none "hi" PURPLE_MESSAGE_SEND 100] ∧
    ¬ hasFlag PURPLE_MESSAGE_SEND PURPLE_MESSAGE_RECV := by
  decide

/-- Every message `write_conversation_message` writes carries the given text and
flags and goes to the peer `im_email`: as a received message, or into the
conversation found or created for `im_email`. -/
theorem write_conversation_message_mem (h : Host) (from_ im_email : String)
    (conn : PurpleConnection) (msg : String) (flags : PurpleMessageFlags) (when : Int)
    (e : Effect) (he : e ∈ messages (write_conversation_message h from_ im_email conn msg flags when)) :
    e = Effect.serv_got_im conn im_email msg (flags ||| PURPLE_MESSAGE_RECV) when ∨
    ∃ pconv, found_or_created h im_email conn.account = some pconv ∧
      e = Effect.purple_conversation_write pconv none msg (flags ||| PURPLE_MESSAGE_SEND) when := by
  by_cases heq : from_ = im_email
  · left
    simpa [write_conversation_message, heq, messages, Effect.isMessage] using he
  · right
    rw [messages_write_conversation_message_ne h from_ im_email conn msg flags when heq] at he
    cases hp : found_or_created h im_email conn.account with
    | none => simp [hp] at he
    | some pconv => exact ⟨pconv, rfl, by simpa [hp] using he⟩

/-- Every message `write_conversation_message` writes for an IM context is
addressed to that context and carries the given text and flags. -/
theorem write_conversation_message_mem_ctx (h : Host) (ctx : AttachmentContext)
    (msg : String) (flags : PurpleMessageFlags) (when : Int) (hc : ctx.chat_id = -1)
    (e : Effect)
    (he : e ∈ messages
      (write_conversation_message h ctx.from_ ctx.im_email ctx.conn msg flags when)) :
    addressedTo h ctx e ∧ e.text = msg ∧ hasFlag e.flags flags := by
  rcases write_conversation_message_mem h _ _ _ _ _ _ e he with rfl | ⟨pconv, hp, rfl⟩
  · exact ⟨⟨hc, rfl, rfl⟩, rfl, hasFlag_or_left _ _⟩
  · exact ⟨⟨hc, hp⟩, rfl, hasFlag_or_left _ _⟩

/-- The number of messages `write_conversation_message` writes: one, unless sender
and peer differ and no conversation is found or created. -/
theorem write_conversation_message_length (h : Host) (from_ im_email : String)
    (conn : PurpleConnection) (msg : String) (flags : PurpleMessageFlags) (when : Int) :
    (messages (write_conversation_message h from_ im_email conn msg flags when)).length =
      if from_ = im_email ∨ (found_or_created h im_email conn.account).isSome = true then 1
      else 0 := by
  by_cases heq : from_ = im_email
  · simp [write_conversation_message, heq, messages, Effect.isMessage]
  · rw [messages_write_conversation_message_ne h from_ im_email conn msg flags when heq]
    cases hp : found_or_created h im_email conn.account <;> simp [heq]

/-! ## sys_message and img_message -/

/-- The number of messages `sys_message` writes: one when the context can be
written to, else none. -/
theorem sys_message_length (h : Host) (ctx : AttachmentContext) (msg : String)
    (flags : PurpleMessageFlags) :
    (messages (sys_message h ctx msg flags)).length = if writable h ctx then 1 else 0 := by
  by_cases hc : ctx.chat_id = -1
  · simp only [sys_message, hc, ne_eq, not_true_eq_false, if_false, writable,
      write_conversation_message_length, false_or]
  · simp [sys_message, hc, writable, messages, Effect.isMessage]

/-- Every message `sys_message` writes is addressed to the context, carries the
given text, and has the caller's flags and PURPLE_MESSAGE_SYSTEM set. -/
theorem sys_message_mem (h : Host) (ctx : AttachmentContext) (msg : String)
    (flags : PurpleMessageFlags) (e : Effect) (he : e ∈ messages (sys_message h ctx msg flags)) :
    addressedTo h ctx e ∧ e.text = msg ∧ hasFlag e.flags flags ∧
      hasFlag e.flags PURPLE_MESSAGE_SYSTEM := by
  by_cases hc : ctx.chat_id = -1
  · simp only [sys_message, hc, ne_eq, not_true_eq_false, if_false] at he
    rcases write_conversation_message_mem h _ _ _ _ _ _ e he with rfl | ⟨pconv, hp, rfl⟩
    · exact ⟨⟨hc, rfl, rfl⟩, rfl, hasFlag_or_of_left _ _ _ (hasFlag_or_left _ _),
        hasFlag_or_of_left _ _ _ (hasFlag_or_right _ _)⟩
    · exact ⟨⟨hc, hp⟩, rfl, hasFlag_or_of_left _ _ _ (hasFlag_or_left _ _),
        hasFlag_or_of_left _ _ _ (hasFlag_or_right _ _)⟩
  · simp only [sys_message, ne_eq, hc, not_false_eq_true, if_true, messages, Effect.isMessage,
      List.filter_cons_of_pos, List.filter_nil, List.mem_singleton] at he
    subst he
    exact ⟨⟨hc, rfl, rfl⟩, rfl, hasFlag_or_left _ _, hasFlag_or_right _ _⟩

/-- The number of messages `img_message` writes: one when the context can be
written to, else none. -/
theorem img_message_length (h : Host) (ctx : AttachmentContext) (image_id : Int) :
    (messages (img_message h ctx image_id)).length = if writable h ctx then 1 else 0 := by
  by_cases hc : ctx.chat_id = -1
  · simp only [img_message, hc, ne_eq, not_true_eq_false, if_false, writable,
      write_conversation_message_length, false_or]
  · simp [img_message, hc, writable, messages, Effect.isMessage]

/-- Every message `img_message` writes is addressed to the context, has the image
tag of the given id as text, and has PURPLE_MESSAGE_IMAGES set. -/
theorem img_message_mem (h : Host) (ctx : AttachmentContext) (image_id : Int) (e : Effect)
    (he : e ∈ messages (img_message h ctx image_id)) :
    addressedTo h ctx e ∧ e.text = "<br><img id=\"" ++ fmt_u image_id ++ "\">" ∧
      hasFlag e.flags PURPLE_MESSAGE_IMAGES := by
  by_cases hc : ctx.chat_id = -1
  · simp only [img_message, hc, ne_eq, not_true_eq_false, if_false] at he
    exact write_conversation_message_mem_ctx h ctx _ _ _ hc e he
  · simp only [img_message, ne_eq, hc, not_false_eq_true, if_true, messages, Effect.isMessage,
      List.filter_cons_of_pos, List.filter_nil, List.mem_singleton] at he
    subst he
    exact ⟨⟨hc, rfl, rfl⟩, Eq.refl _, hasFlag_self PURPLE_MESSAGE_IMAGES⟩

/-- C7, as the code has it: when `ctx->chat_id` is not -1, `sys_message` and
`img_message` each make exactly one `serv_got_chat_in` for the chat room
`ctx->chat_id`; otherwise they write to no chat room, and what they write goes
to the IM conversation with `ctx->im_email`.  They write exactly one message
when the context can be written to, and none when it is an IM whose sender
differs from `im_email` and whose conversation is neither found nor created.
The flags of every message delivered include the caller's flags and
PURPLE_MESSAGE_SYSTEM (`sys_message`) or PURPLE_MESSAGE_IMAGES (`img_message`). -/
theorem sys_img_message_routing (h : Host) (ctx : AttachmentContext) (msg : String)
    (flags : PurpleMessageFlags) (image_id : Int) :
    (ctx.chat_id ≠ -1 →
      sys_message h ctx msg flags =
        [Effect.serv_got_chat_in ctx.conn ctx.chat_id "" (flags ||| PURPLE_MESSAGE_SYSTEM) msg
          h.time] ∧
      img_message h ctx image_id =
        [Effect.serv_got_chat_in ctx.conn ctx.chat_id ctx.from_ PURPLE_MESSAGE_IMAGES
          ("<br><img id=\"" ++ fmt_u image_id ++ "\">") ctx.when]) ∧
    (ctx.chat_id = -1 →
      ∀ e, e ∈ sys_message h ctx msg flags ∨ e ∈ img_message h ctx image_id →
        ∀ c id who f m t, e ≠ Effect.serv_got_chat_in c id who f m t) ∧
    (∀ e ∈ messages (sys_message h ctx msg flags),
      addressedTo h ctx e ∧ e.text = msg ∧ hasFlag e.flags flags ∧
        hasFlag e.flags PURPLE_MESSAGE_SYSTEM) ∧
    (∀ e ∈ messages (img_message h ctx image_id),
      addressedTo h ctx e ∧ hasFlag e.flags PURPLE_MESSAGE_IMAGES) ∧
    (messages (sys_message h ctx msg flags)).length = (if writable h ctx then 1 else 0) ∧
    (messages (img_message h ctx image_id)).length = (if writable h ctx then 1 else 0) := by
  refine ⟨?_, ?_, sys_message_mem h ctx msg flags, ?_, sys_message_length h ctx msg flags,
    img_message_length h ctx image_id⟩
  · intro hc
    simp [sys_message, img_message, hc]
  · intro hc e he c id who f m t heq
    subst heq
    have hmem : Effect.serv_got_chat_in c id who f m t ∈ messages (sys_message h ctx msg flags) ∨
        Effect.serv_got_chat_in c id who f m t ∈ messages (img_message h ctx image_id) := by
      rcases he with he | he
      · exact Or.inl (List.mem_filter.mpr ⟨he, rfl⟩)
      · exact Or.inr (List.mem_filter.mpr ⟨he, rfl⟩)
    rcases hmem with hm | hm
    · exact (sys_message_mem h ctx msg flags _ hm).1.1 hc
    · exact (img_message_mem h ctx image_id _ hm).1.1 hc
  · intro e he
    exact ⟨(img_message_mem h ctx image_id e he).1, (img_message_mem h ctx image_id e he).2.2⟩

/-- C7, witness: a chat context gets the chat message, and what an IM context gets
is not a chat message. -/
theorem sys_img_message_routing_witness :
    (sys_message host0 ctx_chat "oops" PURPLE_MESSAGE_ERROR =
        [Effect.serv_got_chat_in ctx_chat.conn ctx_chat.chat_id ""
          (PURPLE_MESSAGE_ERROR ||| PURPLE_MESSAGE_SYSTEM) "oops" host0.time] ∧
      img_message host0 ctx_chat 3 =
        [Effect.serv_got_chat_in ctx_chat.conn ctx_chat.chat_id ctx_chat.from_
          PURPLE_MESSAGE_IMAGES ("<br><img id=\"" ++ fmt_u 3 ++ "\">") ctx_chat.when]) ∧
    Effect.serv_got_im ⟨1⟩ "bob@example.com" "oops"
        (PURPLE_MESSAGE_ERROR ||| PURPLE_MESSAGE_SYSTEM ||| PURPLE_MESSAGE_RECV) 1500000000 ≠
      Effect.serv_got_chat_in ⟨1⟩ (-1) "" 0 "oops" 1500000000 :=
  ⟨(sys_img_message_routing host0 ctx_chat "oops" PURPLE_MESSAGE_ERROR 3).1 (by decide),
   (sys_img_message_routing host0 ctx_im_peer "oops" PURPLE_MESSAGE_ERROR 3).2.1 (by decide)
     _ (Or.inl (List.mem_singleton.mpr rfl)) ⟨1⟩ (-1) "" 0 "oops" 1500000000⟩

/-- C7, counterexample: in an IM context (`chat_id` = -1) whose sender differs from
`im_email` and whose conversation can be neither found nor created,
`sys_message` and `img_message` write no message at all, to the chat or to the
IM conversation: the only effect is the debug line. -/
theorem sys_img_message_nowhere :
    ctx_im_self.chat_id = -1 ∧
    sys_message host_no_conv ctx_im_self "oops" PURPLE_MESSAGE_ERROR =
      [Effect.purple_debug_error "chime" "NO CONV FOR bob@example.com\n"] ∧
    img_message host_no_conv ctx_im_self 3 =
      [Effect.purple_debug_error "chime" "NO CONV FOR bob@example.com\n"] ∧
    messages (sys_message host_no_conv ctx_im_self "oops" PURPLE_MESSAGE_ERROR) = [] ∧
    messages (img_message host_no_conv ctx_im_self 3) = [] := by
  decide

/-! ## download_attachment -/

/-- When the download directory cannot be created, all `download_attachment` does
is the `sys_message` that reports it. -/
theorem download_attachment_fails (h : Host) (cxn : ChimeConnection) (att : ChimeAttachment)
    (ctx : AttachmentContext) (errno : Int)
    (hdir : h.g_mkdir_with_parents
      (h.g_build_filename
        [h.purple_user_dir, "chime", h.chime_connection_get_email cxn, "downloads"]) 0o755
      = some errno) :
    download_attachment h cxn att ctx =
      sys_message h ctx
        ("Could not make dir " ++
          h.g_build_filename
            [h.purple_user_dir, "chime", h.chime_connection_get_email cxn, "downloads"]
          ++ ",will not fetch file/image (errno=" ++ fmt_d errno ++ ", errstr="
          ++ h.g_strerror errno ++ ")")
        PURPLE_MESSAGE_ERROR := by
  simp only [download_attachment, hdir]

/-- No effect of `sys_message` is a fetch, a fatal error, a file write or an image
registration. -/
theorem sys_message_only_talks (h : Host) (ctx : AttachmentContext) (msg : String)
    (flags : PurpleMessageFlags) (e : Effect) (he : e ∈ sys_message h ctx msg flags) :
    e.isFetch = false ∧ e.isFatal = false ∧ e.isImageStore = false ∧
      ∀ path contents, e ≠ Effect.g_file_set_contents path contents := by
  simp only [sys_message, write_conversation_message] at he
  split at he
  · simp only [List.mem_singleton] at he
    subst he
    simp [Effect.isFetch, Effect.isFatal, Effect.isImageStore]
  · split at he
    · simp only [List.mem_singleton] at he
      subst he
      simp [Effect.isFetch, Effect.isFatal, Effect.isImageStore]
    · split at he
      · simp only [List.mem_singleton] at he
        subst he
        simp [Effect.isFetch, Effect.isFatal, Effect.isImageStore]
      · split at he
        · simp only [List.mem_singleton] at he
          subst he
          simp [Effect.isFetch, Effect.isFatal, Effect.isImageStore]
        · simp only [List.mem_cons, List.mem_singleton, List.not_mem_nil, or_false] at he
          rcases he with rfl | rfl <;> simp [Effect.isFetch, Effect.isFatal, Effect.isImageStore]

/-- C3, as the code has it: when creating the download directory fails,
`download_attachment` issues no fetch and nothing session-fatal, and reports
through `sys_message`: every message emitted is addressed to the attachment's
context and flagged PURPLE_MESSAGE_SYSTEM and PURPLE_MESSAGE_ERROR, and there
is exactly one when the context can be written to and none otherwise (an IM
whose sender differs from `im_email` and whose conversation is neither found
nor created).  When the directory is created, no message is emitted and exactly
one fetch is issued, for `att->url`, with size limit 50,000,000 and
`download_callback` as completion. -/
theorem download_attachment_mkdir (h : Host) (cxn : ChimeConnection) (att : ChimeAttachment)
    (ctx : AttachmentContext) :
    (∀ errno,
      h.g_mkdir_with_parents
        (h.g_build_filename
          [h.purple_user_dir, "chime", h.chime_connection_get_email cxn, "downloads"]) 0o755
        = some errno →
      fetches (download_attachment h cxn att ctx) = [] ∧
      (∀ e ∈ download_attachment h cxn att ctx, e.isFatal = false) ∧
      (messages (download_attachment h cxn att ctx)).length = (if writable h ctx then 1 else 0) ∧
      ∀ e ∈ messages (download_attachment h cxn att ctx),
        addressedTo h ctx e ∧ hasFlag e.flags PURPLE_MESSAGE_SYSTEM ∧
          hasFlag e.flags PURPLE_MESSAGE_ERROR) ∧
    (h.g_mkdir_with_parents
        (h.g_build_filename
          [h.purple_user_dir, "chime", h.chime_connection_get_email cxn, "downloads"]) 0o755
        = none →
      messages (download_attachment h cxn att ctx) = [] ∧
      (∀ e ∈ download_attachment h cxn att ctx, e.isFatal = false) ∧
      ∃ path : String,
        fetches (download_attachment h cxn att ctx) =
          [Effect.purple_util_fetch_url_len att.url true none false 50000000
            Callback.download_callback { att := att, ctx := ctx, path := path }]) := by
  constructor
  · intro errno hdir
    rw [download_attachment_fails h cxn att ctx errno hdir]
    refine ⟨?_, ?_, sys_message_length h ctx _ _, ?_⟩
    · simp only [fetches, List.filter_eq_nil_iff]
      intro e he
      simp [(sys_message_only_talks h ctx _ _ e he).1]
    · intro e he
      exact (sys_message_only_talks h ctx _ _ e he).2.1
    · intro e he
      have hm := sys_message_mem h ctx _ _ e he
      exact ⟨hm.1, hm.2.2.2, hm.2.2.1⟩
  · intro hdir
    simp only [download_attachment, hdir]
    refine ⟨by simp [messages, Effect.isMessage], by simp [Effect.isFatal],
      ⟨h.g_build_filename
          [h.purple_user_dir, "chime", h.chime_connection_get_email cxn, "downloads"]
        ++ "/" ++ att.message_id ++ "-" ++ att.filename, ?_⟩⟩
    have hsize : ATTACHMENT_MAX_SIZE = 50000000 := by decide
    simp [fetches, Effect.isFetch, hsize]

/-- C3, witness: with a chat context, a failed directory creation gives one error
message and no fetch, and a successful one gives one fetch and no message. -/
theorem download_attachment_mkdir_witness :
    (fetches (download_attachment host_no_dir cxn0 att_png ctx_chat) = [] ∧
      (∀ e ∈ download_attachment host_no_dir cxn0 att_png ctx_chat, e.isFatal = false) ∧
      (messages (download_attachment host_no_dir cxn0 att_png ctx_chat)).length =
        (if writable host_no_dir ctx_chat then 1 else 0) ∧
      ∀ e ∈ messages (download_attachment host_no_dir cxn0 att_png ctx_chat),
        addressedTo host_no_dir ctx_chat e ∧ hasFlag e.flags PURPLE_MESSAGE_SYSTEM ∧
          hasFlag e.flags PURPLE_MESSAGE_ERROR) ∧
    (messages (download_attachment host0 cxn0 att_png ctx_chat) = [] ∧
      (∀ e ∈ download_attachment host0 cxn0 att_png ctx_chat, e.isFatal = false) ∧
      ∃ path : String,
        fetches (download_attachment host0 cxn0 att_png ctx_chat) =
          [Effect.purple_util_fetch_url_len att_png.url true none false 50000000
            Callback.download_callback { att := att_png, ctx := ctx_chat, path := path }]) :=
  ⟨(download_attachment_mkdir host_no_dir cxn0 att_png ctx_chat).1 13 rfl,
   (download_attachment_mkdir host0 cxn0 att_png ctx_chat).2 rfl⟩

/-- C3, counterexample: the download directory cannot be created, the context is
an IM whose sender differs from `im_email`, and no conversation can be found or
created: `download_attachment` emits no message at all, only the debug line. -/
theorem download_attachment_mkdir_fails_silently :
    host_no_dir_no_conv.g_mkdir_with_parents "/home/u/.purple/chime/me@example.com/downloads"
      0o755 = some 13 ∧
    download_attachment host_no_dir_no_conv cxn0 att_png ctx_im_self =
      [Effect.purple_debug_error "chime" "NO CONV FOR bob@example.com\n"] ∧
    messages (download_attachment host_no_dir_no_conv cxn0 att_png ctx_im_self) = [] := by
  decide

/-! ## The storage path -/

/-- With the directory created, the one path `download_attachment` stores at is
the directory, a slash, the message id, a dash and the file name. -/
theorem stored_paths_download_attachment (h : Host) (cxn : ChimeConnection)
    (att : ChimeAttachment) (ctx : AttachmentContext)
    (hdir : h.g_mkdir_with_parents
      (h.g_build_filename
        [h.purple_user_dir, "chime", h.chime_connection_get_email cxn, "downloads"]) 0o755
      = none) :
    stored_paths (download_attachment h cxn att ctx) =
      [h.g_build_filename
          [h.purple_user_dir, "chime", h.chime_connection_get_email cxn, "downloads"]
        ++ "/" ++ att.message_id ++ "-" ++ att.filename] := by
  simp [download_attachment, hdir, stored_paths]

/-- C4: once the download directory exists, `download_attachment` stores the
attachment at exactly one path: the directory `g_build_filename` makes of the
purple user directory, "chime", the account email and "downloads", then "/",
then the message id, "-" and the file name.  The directory is a prefix of the
path, and any other call with the same user directory, email, message id and
file name (whatever its url, content type, context and connection) stores at
the same path. -/
theorem download_attachment_path (h : Host) (cxn : ChimeConnection) (att : ChimeAttachment)
    (ctx : AttachmentContext)
    (hdir : h.g_mkdir_with_parents
      (h.g_build_filename
        [h.purple_user_dir, "chime", h.chime_connection_get_email cxn, "downloads"]) 0o755
      = none) :
    stored_paths (download_attachment h cxn att ctx) =
      [h.g_build_filename
          [h.purple_user_dir, "chime", h.chime_connection_get_email cxn, "downloads"]
        ++ "/" ++ att.message_id ++ "-" ++ att.filename] ∧
    (∀ path ∈ stored_paths (download_attachment h cxn att ctx),
      (h.g_build_filename
        [h.purple_user_dir, "chime", h.chime_connection_get_email cxn, "downloads"]).data
        <+: path.data) ∧
    (∀ (h2 : Host) (cxn2 : ChimeConnection) (att2 : ChimeAttachment) (ctx2 : AttachmentContext),
      h2.g_build_filename = h.g_build_filename →
      h2.purple_user_dir = h.purple_user_dir →
      h2.chime_connection_get_email cxn2 = h.chime_connection_get_email cxn →
      att2.message_id = att.message_id →
      att2.filename = att.filename →
      h2.g_mkdir_with_parents
        (h2.g_build_filename
          [h2.purple_user_dir, "chime", h2.chime_connection_get_email cxn2, "downloads"]) 0o755
        = none →
      stored_paths (download_attachment h2 cxn2 att2 ctx2) =
        stored_paths (download_attachment h cxn att ctx)) := by
  refine ⟨stored_paths_download_attachment h cxn att ctx hdir, ?_, ?_⟩
  · intro path hp
    rw [stored_paths_download_attachment h cxn att ctx hdir, List.mem_singleton] at hp
    subst hp
    refine ⟨'/' :: (att.message_id.data ++ '-' :: att.filename.data), ?_⟩
    simp [String.data_append]
  · intro h2 cxn2 att2 ctx2 hb hu he hm hf hdir2
    rw [stored_paths_download_attachment h cxn att ctx hdir,
      stored_paths_download_attachment h2 cxn2 att2 ctx2 hdir2, hb, hu, he, hm, hf]

/-- C4, witness: the path of an attachment in the example host. -/
theorem download_attachment_path_witness :
    stored_paths (download_attachment host0 cxn0 att_png ctx_chat) =
      [host0.g_build_filename
          [host0.purple_user_dir, "chime", host0.chime_connection_get_email cxn0, "downloads"]
        ++ "/" ++ att_png.message_id ++ "-" ++ att_png.filename] ∧
    stored_paths (download_attachment host0 cxn0 att_png ctx_chat) =
      ["/home/u/.purple/chime/me@example.com/downloads/m1-a.png"] ∧
    stored_paths (download_attachment host_no_conv cxn0 { att_png with url := "https://y" }
        ctx_im_self) =
      stored_paths (download_attachment host0 cxn0 att_png ctx_chat) :=
  ⟨(download_attachment_path host0 cxn0 att_png ctx_chat rfl).1, by decide,
   (download_attachment_path host0 cxn0 att_png ctx_chat rfl).2.2 host_no_conv cxn0
     { att_png with url := "https://y" } ctx_im_self rfl rfl rfl rfl rfl rfl⟩

/-- Two storage paths in the same directory are equal exactly when message id, dash
and file name spell the same characters. -/
theorem path_eq_iff (dir m1 f1 m2 f2 : String) :
    dir ++ "/" ++ m1 ++ "-" ++ f1 = dir ++ "/" ++ m2 ++ "-" ++ f2 ↔
      m1.data ++ '-' :: f1.data = m2.data ++ '-' :: f2.data := by
  rw [String.ext_iff]
  simp [String.data_append]

/-- Two different lists followed by the same separator and some rest can spell the
same list only if one of them, with the separator, begins the other. -/
theorem append_sep_eq_imp {α : Type} (a b x y : List α) (c : α) (hne : a ≠ b)
    (heq : a ++ c :: x = b ++ c :: y) : a ++ [c] <+: b ∨ b ++ [c] <+: a := by
  rcases List.append_eq_append_iff.mp heq with ⟨r, hb, hr⟩ | ⟨r, ha, hr⟩
  · left
    cases r with
    | nil => exact absurd (by simpa using hb.symm) hne
    | cons d r =>
      simp only [List.cons_append, List.cons.injEq] at hr
      refine ⟨r, ?_⟩
      rw [hb, hr.1]
      simp
  · right
    cases r with
    | nil => exact absurd (by simpa using ha) hne
    | cons d r =>
      simp only [List.cons_append, List.cons.injEq] at hr
      refine ⟨r, ?_⟩
      rw [ha, hr.1]
      simp

/-- C5, as the code has it: for a fixed account whose download directory exists and
two different message ids, the attachments are stored at different paths
whatever their file names (and urls, content types and contexts) exactly when
neither message id followed by "-" is a prefix of the other message id; this
is so in particular when the two ids have the same length. -/
theorem download_attachment_paths_differ (h : Host) (cxn : ChimeConnection)
    (m1 m2 : String)
    (hdir : h.g_mkdir_with_parents
      (h.g_build_filename
        [h.purple_user_dir, "chime", h.chime_connection_get_email cxn, "downloads"]) 0o755
      = none)
    (hne : m1 ≠ m2) :
    ((∀ (f1 u1 t1 f2 u2 t2 : String) (ctx1 ctx2 : AttachmentContext),
        stored_paths (download_attachment h cxn ⟨m1, f1, u1, t1⟩ ctx1) ≠
          stored_paths (download_attachment h cxn ⟨m2, f2, u2, t2⟩ ctx2)) ↔
      ¬ (m1 ++ "-").data <+: m2.data ∧ ¬ (m2 ++ "-").data <+: m1.data) ∧
    (m1.length = m2.length →
      ∀ (f1 u1 t1 f2 u2 t2 : String) (ctx1 ctx2 : AttachmentContext),
        stored_paths (download_attachment h cxn ⟨m1, f1, u1, t1⟩ ctx1) ≠
          stored_paths (download_attachment h cxn ⟨m2, f2, u2, t2⟩ ctx2)) := by
  have hne_data : m1.data ≠ m2.data := fun hd => hne (String.ext_iff.mpr hd)
  have key : ∀ (f1 u1 t1 f2 u2 t2 : String) (ctx1 ctx2 : AttachmentContext),
      stored_paths (download_attachment h cxn ⟨m1, f1, u1, t1⟩ ctx1) =
          stored_paths (download_attachment h cxn ⟨m2, f2, u2, t2⟩ ctx2) ↔
        m1.data ++ '-' :: f1.data = m2.data ++ '-' :: f2.data := by
    intro f1 u1 t1 f2 u2 t2 ctx1 ctx2
    rw [stored_paths_download_attachment h cxn _ ctx1 hdir,
      stored_paths_download_attachment h cxn _ ctx2 hdir]
    simp only [List.cons.injEq, and_true]
    exact path_eq_iff _ m1 f1 m2 f2
  have hdata : ∀ m : String, (m ++ "-").data = m.data ++ ['-'] := fun m => by
    simp [String.data_append]
  constructor
  · constructor
    · intro hall
      constructor
      · rintro ⟨r, hr⟩
        rw [hdata] at hr
        refine hall (String.mk r ++ "-") "" "" "" "" ""
          ⟨⟨0⟩, "", "", 0, 0⟩ ⟨⟨0⟩, "", "", 0, 0⟩ ?_
        rw [key]
        simp [String.data_append, ← hr]
      · rintro ⟨r, hr⟩
        rw [hdata] at hr
        refine hall "" "" "" (String.mk r ++ "-") "" ""
          ⟨⟨0⟩, "", "", 0, 0⟩ ⟨⟨0⟩, "", "", 0, 0⟩ ?_
        rw [key]
        simp [String.data_append, ← hr]
    · rintro ⟨h12, h21⟩ f1 u1 t1 f2 u2 t2 ctx1 ctx2 heq
      rw [key] at heq
      rw [hdata] at h12 h21
      rcases append_sep_eq_imp _ _ _ _ _ hne_data heq with hp | hp
      · exact h12 hp
      · exact h21 hp
  · intro hlen f1 u1 t1 f2 u2 t2 ctx1 ctx2 heq
    rw [key] at heq
    have hl : m1.data.length = m2.data.length := hlen
    exact hne_data (List.append_inj_left heq hl)

/-- C5, witness: the ids "m1" and "m2" have the same length, so their attachments
do not share a path. -/
theorem download_attachment_paths_differ_witness :
    stored_paths (download_attachment host0 cxn0 ⟨"m1", "a-b", "https://x/1", "text/plain"⟩
        ctx_chat) ≠
      stored_paths (download_attachment host0 cxn0 ⟨"m2", "b", "https://x/2", "text/plain"⟩
        ctx_im_peer) :=
  (download_attachment_paths_differ host0 cxn0 "m1" "m2" rfl (by decide)).2 rfl
    "a-b" "https://x/1" "text/plain" "b" "https://x/2" "text/plain" ctx_chat ctx_im_peer

/-- C5, counterexample: the message ids "a" and "a-b" differ, yet the attachment
"b-c" of the first and the attachment "c" of the second are stored at the same
path of the same account. -/
theorem download_attachment_paths_collide :
    ("a" : String) ≠ "a-b" ∧
    stored_paths (download_attachment host0 cxn0 ⟨"a", "b-c", "https://x/1", "text/plain"⟩
        ctx_chat) =
      ["/home/u/.purple/chime/me@example.com/downloads/a-b-c"] ∧
    stored_paths (download_attachment host0 cxn0 ⟨"a-b", "c", "https://x/2", "text/plain"⟩
        ctx_chat) =
      ["/home/u/.purple/chime/me@example.com/downloads/a-b-c"] := by
  decide

/-! ## download_callback -/

theorem shows_sys_message (h : Host) (ctx : AttachmentContext) (msg : String)
    (flags : PurpleMessageFlags) :
    shows h ctx (sys_message h ctx msg flags) msg [PURPLE_MESSAGE_SYSTEM, flags] := by
  refine ⟨sys_message_length h ctx msg flags, ?_⟩
  intro e he
  have hm := sys_message_mem h ctx msg flags e he
  refine ⟨hm.1, hm.2.1, ?_⟩
  intro f hf
  simp only [List.mem_cons, List.mem_singleton, List.not_mem_nil, or_false] at hf
  rcases hf with rfl | rfl
  · exact hm.2.2.2
  · exact hm.2.2.1

theorem shows_img_message (h : Host) (ctx : AttachmentContext) (image_id : Int) :
    shows h ctx (img_message h ctx image_id) ("<br><img id=\"" ++ fmt_u image_id ++ "\">")
      [PURPLE_MESSAGE_IMAGES] := by
  refine ⟨img_message_length h ctx image_id, ?_⟩
  intro e he
  have hm := img_message_mem h ctx image_id e he
  refine ⟨hm.1, hm.2.1, ?_⟩
  intro f hf
  simp only [List.mem_singleton] at hf
  subst hf
  exact hm.2.2

/-- An effect that is not a message in front of a trace does not change what the
trace shows. -/
theorem shows_cons (h : Host) (ctx : AttachmentContext) (a : Effect) (out : List Effect)
    (text : String) (flags : List PurpleMessageFlags) (ha : a.isMessage = false)
    (hs : shows h ctx out text flags) : shows h ctx (a :: out) text flags := by
  have hm : messages (a :: out) = messages out := by
    simp [messages, ha]
  unfold shows
  rw [hm]
  exact hs

/-- Listing fewer flags keeps `shows`. -/
theorem shows_flags (h : Host) (ctx : AttachmentContext) (out : List Effect) (text : String)
    (flags flags2 : List PurpleMessageFlags) (hsub : ∀ f ∈ flags2, f ∈ flags)
    (hs : shows h ctx out text flags) : shows h ctx out text flags2 :=
  ⟨hs.1, fun e he => ⟨(hs.2 e he).1, (hs.2 e he).2.1, fun f hf => (hs.2 e he).2.2 f (hsub f hf)⟩⟩

/-- Whatever `insert_image_from_file` does, it shows the context one text. -/
theorem insert_image_from_file_shows (h : Host) (ctx : AttachmentContext) (path : String) :
    ∃ text, shows h ctx (insert_image_from_file h ctx path) text [] := by
  unfold insert_image_from_file
  split
  · exact ⟨_, shows_flags _ _ _ _ _ _ (by simp) (shows_sys_message h ctx _ _)⟩
  · simp only []
    split
    · exact ⟨_, shows_flags _ _ _ _ _ _ (by simp) (shows_sys_message h ctx _ _)⟩
    · exact ⟨_, shows_cons _ _ _ _ _ _ rfl
        (shows_flags _ _ _ _ _ _ (by simp) (shows_img_message h ctx _))⟩

/-- Whatever `download_callback` does, it shows the context one text. -/
theorem download_callback_shows (h : Host) (data : DownloadCallbackData)
    (url_text : Option (List UInt8)) (len : Nat) (error_message : Option String) :
    ∃ text, shows h data.ctx (download_callback h data url_text len error_message) text [] := by
  unfold download_callback
  split
  · exact ⟨_, shows_flags _ _ _ _ _ _ (by simp) (shows_sys_message h _ _ _)⟩
  · split
    · exact ⟨_, shows_flags _ _ _ _ _ _ (by simp) (shows_sys_message h _ _ _)⟩
    · split
      · exact ⟨_, shows_flags _ _ _ _ _ _ (by simp) (shows_sys_message h _ _ _)⟩
      · split
        · exact ⟨_, shows_flags _ _ _ _ _ _ (by simp) (shows_sys_message h _ _ _)⟩
        · split
          · obtain ⟨text, ht⟩ := insert_image_from_file_shows h data.ctx data.path
            exact ⟨text, shows_cons _ _ _ _ _ _ rfl ht⟩
          · exact ⟨_, shows_cons _ _ _ _ _ _ rfl
              (shows_flags _ _ _ _ _ _ (by simp) (shows_sys_message h _ _ _))⟩

/-- A message addressed to a chat context is a `serv_got_chat_in` for that chat. -/
theorem addressedTo_chat (h : Host) (ctx : AttachmentContext) (e : Effect)
    (hc : ctx.chat_id ≠ -1) (ha : addressedTo h ctx e) :
    ∃ who flags msg mtime, e = Effect.serv_got_chat_in ctx.conn ctx.chat_id who flags msg mtime := by
  cases e with
  | serv_got_chat_in conn id who flags msg mtime =>
    obtain ⟨_, rfl, rfl⟩ := ha
    exact ⟨who, flags, msg, mtime, rfl⟩
  | serv_got_im conn who msg flags mtime => exact absurd ha.1 hc
  | purple_conversation_write conv who msg flags mtime => exact absurd ha.1 hc
  | _ => exact absurd ha (by simp [addressedTo])

/-- C10: for every completion delivered to `download_callback` in a chat context
(`chat_id` not -1), exactly one message is written, and it is written to that
chat, whichever path is taken.  In an IM context (`chat_id` = -1) at most one
message is written, and none exactly when the sender differs from `im_email`
and the IM conversation is neither found nor created. -/
theorem download_callback_one_message (h : Host) (data : DownloadCallbackData)
    (url_text : Option (List UInt8)) (len : Nat) (error_message : Option String) :
    (data.ctx.chat_id ≠ -1 →
      ∃ who flags msg mtime,
        messages (download_callback h data url_text len error_message) =
          [Effect.serv_got_chat_in data.ctx.conn data.ctx.chat_id who flags msg mtime]) ∧
    (data.ctx.chat_id = -1 →
      (messages (download_callback h data url_text len error_message)).length ≤ 1 ∧
      (messages (download_callback h data url_text len error_message) = [] ↔
        data.ctx.from_ ≠ data.ctx.im_email ∧
        h.purple_find_conversation_with_account .PURPLE_CONV_TYPE_IM data.ctx.im_email
          data.ctx.conn.account = none ∧
        h.purple_conversation_new .PURPLE_CONV_TYPE_IM data.ctx.conn.account
          data.ctx.im_email = none)) := by
  obtain ⟨text, hlen, hall⟩ := download_callback_shows h data url_text len error_message
  constructor
  · intro hc
    have hw : writable h data.ctx := Or.inl hc
    rw [if_pos hw] at hlen
    obtain ⟨e, he⟩ := List.length_eq_one.mp hlen
    have hmem : e ∈ messages (download_callback h data url_text len error_message) := by
      rw [he]
      exact List.mem_singleton.mpr rfl
    obtain ⟨who, flags, msg, mtime, rfl⟩ := addressedTo_chat h data.ctx e hc (hall e hmem).1
    exact ⟨who, flags, msg, mtime, he⟩
  · intro hc
    constructor
    · rw [hlen]
      split <;> simp
    · rw [← List.length_eq_zero, hlen]
      simp only [writable, hc, ne_eq, not_true_eq_false, false_or, found_or_created]
      by_cases heq : data.ctx.from_ = data.ctx.im_email
      · simp [heq]
      · cases hf : h.purple_find_conversation_with_account .PURPLE_CONV_TYPE_IM
            data.ctx.im_email data.ctx.conn.account with
        | some c => simp [heq]
        | none =>
          cases hn : h.purple_conversation_new .PURPLE_CONV_TYPE_IM data.ctx.conn.account
              data.ctx.im_email with
          | some c => simp [heq]
          | none => simp [heq]

/-- C10, witness: a fetch error in a chat gives one chat message; a stored image in
an IM context gives at most one message. -/
theorem download_callback_one_message_witness :
    (∃ who flags msg mtime,
      messages (download_callback host0 ⟨att_png, ctx_chat, "/d/m1-a.png"⟩ none 0
          (some "timed out")) =
        [Effect.serv_got_chat_in ctx_chat.conn ctx_chat.chat_id who flags msg mtime]) ∧
    (messages (download_callback host0 ⟨att_png, ctx_im_self, "/d/m1-a.png"⟩ (some [1, 2, 3]) 3
        none)).length ≤ 1 :=
  ⟨(download_callback_one_message host0 ⟨att_png, ctx_chat, "/d/m1-a.png"⟩ none 0
      (some "timed out")).1 (by decide),
   ((download_callback_one_message host0 ⟨att_png, ctx_im_self, "/d/m1-a.png"⟩ (some [1, 2, 3]) 3
      none).2 (by decide)).1⟩

/-- No effect of `img_message` is a fetch, a fatal error, a file write or an image
registration. -/
theorem img_message_only_talks (h : Host) (ctx : AttachmentContext) (image_id : Int)
    (e : Effect) (he : e ∈ img_message h ctx image_id) :
    e.isFetch = false ∧ e.isFatal = false ∧ e.isImageStore = false ∧
      ∀ path contents, e ≠ Effect.g_file_set_contents path contents := by
  simp only [img_message, write_conversation_message] at he
  split at he
  · simp only [List.mem_singleton] at he
    subst he
    simp [Effect.isFetch, Effect.isFatal, Effect.isImageStore]
  · split at he
    · simp only [List.mem_singleton] at he
      subst he
      simp [Effect.isFetch, Effect.isFatal, Effect.isImageStore]
    · split at he
      · simp only [List.mem_singleton] at he
        subst he
        simp [Effect.isFetch, Effect.isFatal, Effect.isImageStore]
      · split at he
        · simp only [List.mem_singleton] at he
          subst he
          simp [Effect.isFetch, Effect.isFatal, Effect.isImageStore]
        · simp only [List.mem_cons, List.mem_singleton, List.not_mem_nil, or_false] at he
          rcases he with rfl | rfl <;> simp [Effect.isFetch, Effect.isFatal, Effect.isImageStore]

/-- No effect of `insert_image_from_file` is a file write. -/
theorem insert_image_from_file_no_write (h : Host) (ctx : AttachmentContext) (path : String)
    (e : Effect) (he : e ∈ insert_image_from_file h ctx path) :
    ∀ p contents, e ≠ Effect.g_file_set_contents p contents := by
  unfold insert_image_from_file at he
  split at he
  · exact (sys_message_only_talks h ctx _ _ e he).2.2.2
  · simp only [] at he
    split at he
    · exact (sys_message_only_talks h ctx _ _ e he).2.2.2
    · simp only [List.mem_cons] at he
      rcases he with rfl | he
      · simp
      · exact (img_message_only_talks h ctx _ e he).2.2.2

/-- C2, as the code has it: for every completion delivered to `download_callback`,
the file at `data->path` is written if and only if `error_message` is NULL,
`url_text` is non-NULL, `len` is greater than 0 and `g_file_set_contents`
succeeds; when written it receives exactly the first `len` bytes of
`url_text`, and no other file is written.  When `error_message` is non-NULL
nothing is written, and that same error string is what is shown as a system
error notice: every message emitted is addressed to the context, carries that
string and is flagged PURPLE_MESSAGE_SYSTEM and PURPLE_MESSAGE_ERROR, and there
is exactly one when the context can be written to and none otherwise. -/
theorem download_callback_file (h : Host) (data : DownloadCallbackData)
    (url_text : Option (List UInt8)) (len : Nat) (error_message : Option String) :
    (∀ path contents,
      Effect.g_file_set_contents path contents ∈
          download_callback h data url_text len error_message ↔
        error_message = none ∧ 0 < len ∧
          ∃ text, url_text = some text ∧
            h.g_file_set_contents data.path (text.take len) = none ∧
            path = data.path ∧ contents = text.take len) ∧
    (∀ message, error_message = some message →
      files_written (download_callback h data url_text len error_message) = [] ∧
      shows h data.ctx (download_callback h data url_text len error_message) message
        [PURPLE_MESSAGE_SYSTEM, PURPLE_MESSAGE_ERROR]) := by
  constructor
  · intro path contents
    cases error_message with
    | some message =>
      simp only [download_callback]
      constructor
      · intro hmem
        exact absurd rfl ((sys_message_only_talks h _ _ _ _ hmem).2.2.2 path contents)
      · rintro ⟨hn, _⟩
        exact absurd hn (by simp)
    | none =>
      cases url_text with
      | none =>
        simp only [download_callback]
        constructor
        · intro hmem
          exact absurd rfl ((sys_message_only_talks h _ _ _ _ hmem).2.2.2 path contents)
        · rintro ⟨_, _, text, ht, _⟩
          exact absurd ht (by simp)
      | some text =>
        by_cases hlen : len ≤ 0
        · simp only [download_callback, if_pos hlen]
          constructor
          · intro hmem
            exact absurd rfl ((sys_message_only_talks h _ _ _ _ hmem).2.2.2 path contents)
          · rintro ⟨_, hpos, _⟩
            omega
        · cases hw : h.g_file_set_contents data.path (text.take len) with
          | some message =>
            simp only [download_callback, if_neg hlen, hw]
            constructor
            · intro hmem
              exact absurd rfl ((sys_message_only_talks h _ _ _ _ hmem).2.2.2 path contents)
            · rintro ⟨_, _, text2, ht, hw2, _⟩
              simp only [Option.some.injEq] at ht
              subst ht
              rw [hw] at hw2
              exact absurd hw2 (by simp)
          | none =>
            simp only [download_callback, if_neg hlen, hw, List.mem_cons]
            constructor
            · rintro (heq | hmem)
              · simp only [Effect.g_file_set_contents.injEq] at heq
                exact ⟨by trivial, by omega, text, rfl, hw, heq.1, heq.2⟩
              · exfalso
                split at hmem
                · exact insert_image_from_file_no_write h _ _ _ hmem path contents rfl
                · exact (sys_message_only_talks h _ _ _ _ hmem).2.2.2 path contents rfl
            · rintro ⟨_, _, text2, ht, _, hp, hc⟩
              simp only [Option.some.injEq] at ht
              subst ht
              left
              rw [hp, hc]
  · intro message hm
    subst hm
    simp only [download_callback]
    refine ⟨?_, shows_sys_message h data.ctx message PURPLE_MESSAGE_ERROR⟩
    simp only [files_written, List.filterMap_eq_nil_iff]
    intro e he
    have hno := (sys_message_only_talks h _ _ _ e he).2.2.2
    cases e <;> first | rfl | exact absurd rfl (hno _ _)

/-- C2, witness: two of three downloaded bytes are asked for and written; a fetch
error writes no file and is shown as the error notice. -/
theorem download_callback_file_witness :
    Effect.g_file_set_contents "/d/m1-a.png" [1, 2] ∈
      download_callback host0 ⟨att_png, ctx_chat, "/d/m1-a.png"⟩ (some [1, 2, 3]) 2 none ∧
    files_written (download_callback host0 ⟨att_png, ctx_chat, "/d/m1-a.png"⟩ (some [1, 2, 3]) 2
      (some "timed out")) = [] ∧
    shows host0 ctx_chat
      (download_callback host0 ⟨att_png, ctx_chat, "/d/m1-a.png"⟩ (some [1, 2, 3]) 2
        (some "timed out"))
      "timed out" [PURPLE_MESSAGE_SYSTEM, PURPLE_MESSAGE_ERROR] :=
  ⟨((download_callback_file host0 ⟨att_png, ctx_chat, "/d/m1-a.png"⟩ (some [1, 2, 3]) 2 none).1
      "/d/m1-a.png" [1, 2]).mpr ⟨rfl, by decide, [1, 2, 3], rfl, rfl, rfl, rfl⟩,
   (download_callback_file host0 ⟨att_png, ctx_chat, "/d/m1-a.png"⟩ (some [1, 2, 3]) 2
      (some "timed out")).2 "timed out" rfl⟩

/-- C2, counterexample: (1) no fetch error, a non-NULL buffer and `len` = 3, yet no
file is written, because `g_file_set_contents` fails; (2) a fetch error in an
IM context whose sender differs from `im_email` and whose conversation can be
neither found nor created: the error string is shown nowhere. -/
theorem download_callback_not_written_not_shown :
    files_written (download_callback host_no_write ⟨att_png, ctx_chat, "/d/m1-a.png"⟩
      (some [1, 2, 3]) 3 none) = [] ∧
    download_callback host_no_write ⟨att_png, ctx_chat, "/d/m1-a.png"⟩ (some [1, 2, 3]) 3 none =
      [Effect.serv_got_chat_in ⟨1⟩ 5 "" (PURPLE_MESSAGE_ERROR ||| PURPLE_MESSAGE_SYSTEM)
        "No space left on device" 1500000000] ∧
    download_callback host_no_conv ⟨att_png, ctx_im_self, "/d/m1-a.png"⟩ none 0
        (some "timed out") =
      [Effect.purple_debug_error "chime" "NO CONV FOR bob@example.com\n"] ∧
    messages (download_callback host_no_conv ⟨att_png, ctx_im_self, "/d/m1-a.png"⟩ none 0
        (some "timed out")) = [] := by
  decide

/-- Conversion `%u` prints an id between 0 and 2^32 - 1 as the id itself. -/
theorem fmt_u_of_nonneg (i : Int) (h0 : 0 ≤ i) (h1 : i < 4294967296) :
    fmt_u i = toString i.toNat := by
  unfold fmt_u
  rw [Int.emod_eq_of_lt h0 h1]

/-- What `download_callback` does once the file is stored. -/
theorem download_callback_stored (h : Host) (data : DownloadCallbackData) (text : List UInt8)
    (len : Nat) (hlen : 0 < len)
    (hw : h.g_file_set_contents data.path (text.take len) = none) :
    download_callback h data (some text) len none =
      Effect.g_file_set_contents data.path (text.take len) ::
        (if h.g_content_type_is_a data.att.content_type "image/*" then
          insert_image_from_file h data.ctx data.path
        else
          sys_message h data.ctx
            (data.ctx.from_ ++ " has attached <a href=\"file://" ++ data.path ++ "\">"
              ++ data.att.filename ++ "</a>")
            PURPLE_MESSAGE_SYSTEM) := by
  have hn : ¬ len ≤ 0 := by omega
  simp only [download_callback, if_neg hn, hw]

/-- C9, as the code has it: once `download_callback` has stored the file, the
content type decides what is shown.  For an image type (`g_content_type_is_a`
says it is an "image/*") the stored file is read back and registered with the
image store: if that gives the non-zero id N, the image is registered and the
text shown is `<br><img id="N">` (N printed by `%u`) flagged
PURPLE_MESSAGE_IMAGES; if reading fails, its error message is shown as a system
error notice, and if the id is 0 the notice is "Could not make purple image
from <path>", and no image is registered.  For every other content type no
image is registered and the text "<from> has attached <a href="file://<path>">
<filename></a>" is shown as a system message.  In each case "shown" is: every
message emitted is addressed to the context and carries that text and those
flags, and there is exactly one when the context can be written to and none
when it is an IM whose sender differs from `im_email` and whose conversation is
neither found nor created. -/
theorem download_callback_after_store (h : Host) (data : DownloadCallbackData)
    (text : List UInt8) (len : Nat) (hlen : 0 < len)
    (hw : h.g_file_set_contents data.path (text.take len) = none) :
    (h.g_content_type_is_a data.att.content_type "image/*" = true →
      (∀ message, h.g_file_get_contents data.path = .error message →
        (∀ e ∈ download_callback h data (some text) len none, e.isImageStore = false) ∧
        shows h data.ctx (download_callback h data (some text) len none) message
          [PURPLE_MESSAGE_SYSTEM, PURPLE_MESSAGE_ERROR]) ∧
      (∀ contents, h.g_file_get_contents data.path = .ok contents →
        h.purple_imgstore_add_with_id contents contents.length data.path = 0 →
        (∀ e ∈ download_callback h data (some text) len none, e.isImageStore = false) ∧
        shows h data.ctx (download_callback h data (some text) len none)
          ("Could not make purple image from " ++ data.path)
          [PURPLE_MESSAGE_SYSTEM, PURPLE_MESSAGE_ERROR]) ∧
      (∀ contents, h.g_file_get_contents data.path = .ok contents →
        h.purple_imgstore_add_with_id contents contents.length data.path ≠ 0 →
        Effect.purple_imgstore_add_with_id contents contents.length data.path
            (h.purple_imgstore_add_with_id contents contents.length data.path) ∈
          download_callback h data (some text) len none ∧
        shows h data.ctx (download_callback h data (some text) len none)
          ("<br><img id=\""
            ++ fmt_u (h.purple_imgstore_add_with_id contents contents.length data.path)
            ++ "\">")
          [PURPLE_MESSAGE_IMAGES])) ∧
    (h.g_content_type_is_a data.att.content_type "image/*" = false →
      (∀ e ∈ download_callback h data (some text) len none, e.isImageStore = false) ∧
      shows h data.ctx (download_callback h data (some text) len none)
        (data.ctx.from_ ++ " has attached <a href=\"file://" ++ data.path ++ "\">"
          ++ data.att.filename ++ "</a>")
        [PURPLE_MESSAGE_SYSTEM]) ∧
    (∀ id : Int, 0 ≤ id → id < 4294967296 → fmt_u id = toString id.toNat) := by
  rw [download_callback_stored h data text len hlen hw]
  refine ⟨?_, ?_, fmt_u_of_nonneg⟩
  · intro himg
    simp only [himg, if_true]
    refine ⟨?_, ?_, ?_⟩
    · intro message hr
      simp only [insert_image_from_file, hr]
      refine ⟨?_, shows_cons _ _ _ _ _ _ rfl (shows_sys_message h data.ctx message _)⟩
      intro e he
      simp only [List.mem_cons] at he
      rcases he with rfl | he
      · rfl
      · exact (sys_message_only_talks h _ _ _ e he).2.2.1
    · intro contents hr hid
      simp only [insert_image_from_file, hr, hid, if_true]
      refine ⟨?_, shows_cons _ _ _ _ _ _ rfl (shows_sys_message h data.ctx _ _)⟩
      intro e he
      simp only [List.mem_cons] at he
      rcases he with rfl | he
      · rfl
      · exact (sys_message_only_talks h _ _ _ e he).2.2.1
    · intro contents hr hid
      simp only [insert_image_from_file, hr, if_neg hid]
      refine ⟨by simp, shows_cons _ _ _ _ _ _ rfl (shows_cons _ _ _ _ _ _ rfl
        (shows_img_message h data.ctx _))⟩
  · intro himg
    simp only [himg]
    refine ⟨?_, shows_cons _ _ _ _ _ _ rfl
      (shows_flags _ _ _ _ _ _ (by simp) (shows_sys_message h data.ctx _ _))⟩
    intro e he
    simp only [Bool.false_eq_true, if_false, List.mem_cons] at he
    rcases he with rfl | he
    · rfl
    · exact (sys_message_only_talks h _ _ _ e he).2.2.1

/-- C9, witness: the four outcomes after the file is stored, in a chat context: the
file cannot be read back, the image store refuses it, the image is shown, and a
file that is not an image is linked. -/
theorem download_callback_after_store_witness :
    ((∀ e ∈ download_callback host_no_read ⟨att_png, ctx_chat, "/d/m1-a.png"⟩ (some [1, 2, 3]) 3
        none, e.isImageStore = false) ∧
      shows host_no_read ctx_chat
        (download_callback host_no_read ⟨att_png, ctx_chat, "/d/m1-a.png"⟩ (some [1, 2, 3]) 3
          none)
        "Permission denied" [PURPLE_MESSAGE_SYSTEM, PURPLE_MESSAGE_ERROR]) ∧
    ((∀ e ∈ download_callback host_no_image ⟨att_png, ctx_chat, "/d/m1-a.png"⟩ (some [1, 2, 3]) 3
        none, e.isImageStore = false) ∧
      shows host_no_image ctx_chat
        (download_callback host_no_image ⟨att_png, ctx_chat, "/d/m1-a.png"⟩ (some [1, 2, 3]) 3
          none)
        ("Could not make purple image from " ++ "/d/m1-a.png")
        [PURPLE_MESSAGE_SYSTEM, PURPLE_MESSAGE_ERROR]) ∧
    (Effect.purple_imgstore_add_with_id [0x89, 0x50] 2 "/d/m1-a.png" 3 ∈
        download_callback host0 ⟨att_png, ctx_chat, "/d/m1-a.png"⟩ (some [1, 2, 3]) 3 none ∧
      shows host0 ctx_chat
        (download_callback host0 ⟨att_png, ctx_chat, "/d/m1-a.png"⟩ (some [1, 2, 3]) 3 none)
        ("<br><img id=\"" ++ fmt_u 3 ++ "\">") [PURPLE_MESSAGE_IMAGES]) ∧
    ((∀ e ∈ download_callback host0 ⟨att_pdf, ctx_chat, "/d/m2-b.pdf"⟩ (some [1, 2, 3]) 3 none,
        e.isImageStore = false) ∧
      shows host0 ctx_chat
        (download_callback host0 ⟨att_pdf, ctx_chat, "/d/m2-b.pdf"⟩ (some [1, 2, 3]) 3 none)
        ("Bob" ++ " has attached <a href=\"file://" ++ "/d/m2-b.pdf" ++ "\">" ++ "b.pdf"
          ++ "</a>")
        [PURPLE_MESSAGE_SYSTEM]) :=
  ⟨((download_callback_after_store host_no_read ⟨att_png, ctx_chat, "/d/m1-a.png"⟩ [1, 2, 3] 3
      (by decide) rfl).1 rfl).1 "Permission denied" rfl,
   ((download_callback_after_store host_no_image ⟨att_png, ctx_chat, "/d/m1-a.png"⟩ [1, 2, 3] 3
      (by decide) rfl).1 rfl).2.1 [0x89, 0x50] rfl rfl,
   ((download_callback_after_store host0 ⟨att_png, ctx_chat, "/d/m1-a.png"⟩ [1, 2, 3] 3
      (by decide) rfl).1 rfl).2.2 [0x89, 0x50] rfl (by decide),
   (download_callback_after_store host0 ⟨att_pdf, ctx_chat, "/d/m2-b.pdf"⟩ [1, 2, 3] 3
      (by decide) rfl).2.1 rfl⟩

/-- C9, counterexample: the file is stored, the context is an IM whose sender
differs from `im_email` and no conversation can be found or created.  For a
file that is not an image no system message is shown; for an image the image
is registered and no image message is shown. -/
theorem download_callback_stored_not_shown :
    download_callback host_no_conv ⟨att_pdf, ctx_im_self, "/d/m2-b.pdf"⟩ (some [1, 2, 3]) 3 none =
      [Effect.g_file_set_contents "/d/m2-b.pdf" [1, 2, 3],
       Effect.purple_debug_error "chime" "NO CONV FOR bob@example.com\n"] ∧
    messages (download_callback host_no_conv ⟨att_pdf, ctx_im_self, "/d/m2-b.pdf"⟩
      (some [1, 2, 3]) 3 none) = [] ∧
    download_callback host_no_conv ⟨att_png, ctx_im_self, "/d/m1-a.png"⟩ (some [1, 2, 3]) 3 none =
      [Effect.g_file_set_contents "/d/m1-a.png" [1, 2, 3],
       Effect.purple_imgstore_add_with_id [0x89, 0x50] 2 "/d/m1-a.png" 3,
       Effect.purple_debug_error "chime" "NO CONV FOR bob@example.com\n"] ∧
    messages (download_callback host_no_conv ⟨att_png, ctx_im_self, "/d/m1-a.png"⟩
      (some [1, 2, 3]) 3 none) = [] := by
  decide

/-! ## Subscribe and resubscribe -/

end Chime
